import Mathlib

/-!
Shallow embedding of the domain layer of the Reservation-API repository
(`src/domain/value_objects.py`, `src/domain/enums.py`,
`src/domain/entities/availability.py`, `src/domain/entities/reservation.py`,
`src/domain/entities/waitlist.py`).

Conventions of the embedding:
* Python `int` becomes `Int`.
* `Decimal` becomes `Rat` (exact decimal arithmetic).
* Calendar dates (`datetime.date`) become `Int` day numbers; `datetime`
  instants become `Int` hour counts; `hourDate` is the date containing an
  hour instant (Python `datetime.date()` truncates to the start of the day,
  i.e. floor division by 24). Methods that read the clock (`datetime.utcnow`,
  `date.today`) take the corresponding `now` / `today` value as an argument.
* A mutating method of an aggregate becomes a function
  `State → … → Option String × State`: the first component is the raised
  `ValueError` message (`none` on success) and the second is the state of the
  aggregate after the call, translated statement by statement from the Python
  body, so that a raise happening after a field assignment would be visible as
  a mutated state paired with an error.
* pydantic-v1 construction of a model becomes an `mk…` function returning
  `Except String`.  pydantic v1 validates fields in declaration order and a
  field validator sees only the previously validated fields in `values`;
  mutating an already-constructed model does not re-run any validator because
  no model sets `validate_assignment` in its `Config`.  The `mk…` functions
  reproduce these semantics literally.
-/

namespace ResAPI

/-- Date (day number) containing the hour instant `t`. -/
def hourDate (t : Int) : Int := Int.fdiv t 24

/-! ## Value objects — src/domain/value_objects.py -/

structure DateRange where
  check_in : Int
  check_out : Int
deriving Repr, DecidableEq

/-- `DateRange.nights`: `(check_out - check_in).days`. -/
def DateRange.nights (d : DateRange) : Int := d.check_out - d.check_in

/-- pydantic construction of `DateRange`: field order is `check_in`,
`check_out`; validator `check_in_not_past` runs on `check_in`, then
`check_out_after_check_in` on `check_out`. -/
def mkDateRange (today check_in check_out : Int) : Except String DateRange :=
  if check_in < today then .error "Check-in date cannot be in the past"
  else if check_out ≤ check_in then .error "Check-out must be after check-in"
  else .ok ⟨check_in, check_out⟩

structure Money where
  amount : Rat
  currency : String
deriving Repr, DecidableEq

/-- pydantic construction of `Money`: `amount` carries `Field(ge=0)`. -/
def mkMoney (amount : Rat) (currency : String) : Except String Money :=
  if amount < 0 then .error "amount must be non-negative"
  else .ok ⟨amount, currency⟩

structure GuestCount where
  adults : Int
  children : Int
deriving Repr, DecidableEq

/-- pydantic construction of `GuestCount`: `adults ∈ [1,10]`,
`children ∈ [0,10]` via `Field(ge/le)`. -/
def mkGuestCount (adults children : Int) : Except String GuestCount :=
  if adults < 1 then .error "adults must be >= 1"
  else if adults > 10 then .error "adults must be <= 10"
  else if children < 0 then .error "children must be >= 0"
  else if children > 10 then .error "children must be <= 10"
  else .ok ⟨adults, children⟩

structure CancellationPolicy where
  policy_name : String
  refund_percentage : Rat
  deadline_hours : Int
deriving Repr, DecidableEq

/-- `CancellationPolicy.calculate_refund`:
`hours_until_checkin = (check_in_date - cancellation_date).days * 24`;
full `refund_percentage` of the total when that is `≥ deadline_hours`,
otherwise zero. -/
def CancellationPolicy.calculate_refund (p : CancellationPolicy)
    (total_amount : Money) (cancellation_date check_in_date : Int) : Money :=
  let hours_until_checkin := (check_in_date - cancellation_date) * 24
  if hours_until_checkin ≥ p.deadline_hours then
    { amount := total_amount.amount * (p.refund_percentage / 100),
      currency := total_amount.currency }
  else
    { amount := 0, currency := total_amount.currency }

/-! ## Availability aggregate — src/domain/entities/availability.py -/

structure Availability where
  room_type_id : String
  availability_date : Int
  total_rooms : Int
  reserved_rooms : Int
  blocked_rooms : Int
  overbooking_threshold : Int
  last_updated : Int
  version : Int
deriving Repr, DecidableEq

/-- pydantic construction of `Availability`.  Field order is `room_type_id`,
`availability_date`, `total_rooms`, `reserved_rooms`, `blocked_rooms`,
`overbooking_threshold`, `last_updated`, `version`.  The `validate_capacity`
validator runs on `reserved_rooms` and on `blocked_rooms`, but it reads the
field currently being validated and `overbooking_threshold` out of `values`,
where neither is present yet, so both default to `0`: while validating
`reserved_rooms` the check degenerates to `0 + 0 > total_rooms`, and while
validating `blocked_rooms` it degenerates to `reserved_rooms + 0 >
total_rooms`.  The only capacity condition construction actually enforces is
therefore `reserved_rooms ≤ total_rooms`. -/
def mkAvailability (room_type_id : String)
    (availability_date total_rooms reserved_rooms blocked_rooms
      overbooking_threshold last_updated version : Int) :
    Except String Availability :=
  if total_rooms < 0 then .error "total_rooms must be >= 0"
  else if reserved_rooms < 0 then .error "reserved_rooms must be >= 0"
  else if blocked_rooms < 0 then .error "blocked_rooms must be >= 0"
  else if reserved_rooms > total_rooms then
    .error "reserved_rooms + blocked_rooms exceeds capacity"
  else if overbooking_threshold < 0 then
    .error "overbooking_threshold must be >= 0"
  else .ok ⟨room_type_id, availability_date, total_rooms, reserved_rooms,
    blocked_rooms, overbooking_threshold, last_updated, version⟩

/-- `Availability.available_rooms`: `total_rooms - reserved_rooms - blocked_rooms`. -/
def Availability.available_rooms (a : Availability) : Int :=
  a.total_rooms - a.reserved_rooms - a.blocked_rooms

/-- `Availability.check_availability`. -/
def Availability.check_availability (a : Availability) (count : Int) : Bool :=
  a.available_rooms ≥ count ||
    a.available_rooms + a.overbooking_threshold ≥ count

/-- `Availability.reserve_rooms`. -/
def Availability.reserve_rooms (a : Availability) (count now : Int) :
    Option String × Availability :=
  if ¬ a.check_availability count then (some "Insufficient availability", a)
  else (none, { a with reserved_rooms := a.reserved_rooms + count,
                       last_updated := now, version := a.version + 1 })

/-- `Availability.release_rooms`. -/
def Availability.release_rooms (a : Availability) (count now : Int) :
    Option String × Availability :=
  if count > a.reserved_rooms then (some "Cannot release more than reserved", a)
  else (none, { a with reserved_rooms := a.reserved_rooms - count,
                       last_updated := now, version := a.version + 1 })

/-- `Availability.block_rooms` (the `reason` argument is unused by the body). -/
def Availability.block_rooms (a : Availability) (count : Int) (reason : String)
    (now : Int) : Option String × Availability :=
  if a.blocked_rooms + count > a.total_rooms then
    (some "Cannot block more rooms than total available", a)
  else (none, { a with blocked_rooms := a.blocked_rooms + count,
                       last_updated := now, version := a.version + 1 })

/-- `Availability.unblock_rooms`. -/
def Availability.unblock_rooms (a : Availability) (count now : Int) :
    Option String × Availability :=
  if count > a.blocked_rooms then (some "Cannot unblock more than blocked", a)
  else (none, { a with blocked_rooms := a.blocked_rooms - count,
                       last_updated := now, version := a.version + 1 })

/-! ## Enumerations — src/domain/enums.py -/

inductive ReservationStatus where
  | PENDING
  | CONFIRMED
  | CHECKED_IN
  | CHECKED_OUT
  | CANCELLED
  | NO_SHOW
deriving Repr, DecidableEq

inductive BookingSource where
  | ONLINE
  | PHONE
  | WALK_IN
  | PARTNER
deriving Repr, DecidableEq

inductive RequestType where
  | EARLY_CHECKIN
  | LATE_CHECKOUT
  | HIGH_FLOOR
  | LOW_FLOOR
  | SMOKING
  | NON_SMOKING
  | SPECIAL_AMENITIES
  | OTHER
deriving Repr, DecidableEq

inductive Priority where
  | LOW
  | MEDIUM
  | HIGH
  | URGENT
deriving Repr, DecidableEq

/-- The `int` value of the `Priority` enum: LOW=1, MEDIUM=2, HIGH=3, URGENT=4. -/
def Priority.value : Priority → Int
  | .LOW => 1
  | .MEDIUM => 2
  | .HIGH => 3
  | .URGENT => 4

inductive WaitlistStatus where
  | ACTIVE
  | CONVERTED
  | EXPIRED
  | CANCELLED
deriving Repr, DecidableEq

/-! ## Reservation aggregate — src/domain/entities/reservation.py -/

structure SpecialRequest where
  request_id : Int
  request_type : RequestType
  description : String
  fulfilled : Bool
  notes : Option String
  created_at : Int
deriving Repr, DecidableEq

structure Reservation where
  reservation_id : Int
  confirmation_code : String
  guest_id : Int
  room_type_id : String
  date_range : DateRange
  guest_count : GuestCount
  total_amount : Money
  cancellation_policy : CancellationPolicy
  status : ReservationStatus
  booking_source : BookingSource
  special_requests : List SpecialRequest
  created_at : Int
  modified_at : Int
  created_by : String
  version : Int
deriving Repr, DecidableEq

/-- pydantic construction of `Reservation`, as invoked by
`Reservation.create` (which fixes `status = PENDING`, empty
`special_requests`, `version = 1` and fresh timestamps).  Validators run in
field declaration order: `validate_date_range` on `date_range`,
`validate_guest_count` on `guest_count`, `validate_amount` on
`total_amount`. -/
def mkReservation (reservation_id : Int) (confirmation_code : String)
    (guest_id : Int) (room_type_id : String) (date_range : DateRange)
    (guest_count : GuestCount) (total_amount : Money)
    (cancellation_policy : CancellationPolicy)
    (booking_source : BookingSource) (created_by : String) (now : Int) :
    Except String Reservation :=
  if date_range.nights < 1 then .error "Reservation must be at least 1 night"
  else if date_range.nights > 30 then .error "Maximum stay is 30 nights"
  else if guest_count.adults < 1 then .error "At least 1 adult required"
  else if guest_count.children < 0 then
    .error "Children count cannot be negative"
  else if total_amount.amount ≤ 0 then
    .error "Total amount must be greater than 0"
  else .ok ⟨reservation_id, confirmation_code, guest_id, room_type_id,
    date_range, guest_count, total_amount, cancellation_policy,
    .PENDING, booking_source, [], now, now, created_by, 1⟩

/-- `Reservation.is_modifiable`: status PENDING or CONFIRMED and
`check_in ≥ today + 1 day`. -/
def Reservation.is_modifiable (r : Reservation) (today : Int) : Bool :=
  (r.status = .PENDING || r.status = .CONFIRMED) &&
    r.date_range.check_in ≥ today + 1

/-- `Reservation.is_cancellable`: status PENDING or CONFIRMED. -/
def Reservation.is_cancellable (r : Reservation) : Bool :=
  r.status = .PENDING || r.status = .CONFIRMED

/-- `Reservation.calculate_refund`. -/
def Reservation.calculate_refund (r : Reservation) (cancellation_date : Int) :
    Money :=
  r.cancellation_policy.calculate_refund r.total_amount cancellation_date
    r.date_range.check_in

/-- `Reservation.modify`.  No model sets `validate_assignment`, so the
field assignments here do not re-run the `Reservation` validators; Python
truthiness skips a supplied `new_room_type_id` that is the empty string,
while the three model-valued arguments are always truthy when present. -/
def Reservation.modify (r : Reservation) (new_date_range : Option DateRange)
    (new_guest_count : Option GuestCount) (new_room_type_id : Option String)
    (new_total_amount : Option Money) (today now : Int) :
    Option String × Reservation :=
  if ¬ r.is_modifiable today then
    (some "Reservation cannot be modified in current state", r)
  else
    let r := match new_date_range with
      | some d => { r with date_range := d }
      | none => r
    let r := match new_guest_count with
      | some g => { r with guest_count := g }
      | none => r
    let r := match new_room_type_id with
      | some s => if s = "" then r else { r with room_type_id := s }
      | none => r
    let r := match new_total_amount with
      | some m => { r with total_amount := m }
      | none => r
    (none, { r with modified_at := now, version := r.version + 1 })

/-- `Reservation.add_special_request`: appends a fresh `SpecialRequest`
(`fulfilled = False`, `notes = None`) and refreshes `modified_at`; it does
not touch `version`. -/
def Reservation.add_special_request (r : Reservation)
    (request_type : RequestType) (description : String)
    (request_id now : Int) : Reservation :=
  { r with
    special_requests := r.special_requests ++
      [⟨request_id, request_type, description, false, none, now⟩],
    modified_at := now }

/-- `Reservation.confirm`. -/
def Reservation.confirm (r : Reservation) (payment_confirmed : Bool)
    (now : Int) : Option String × Reservation :=
  if r.status ≠ .PENDING then
    (some "Can only confirm PENDING reservations", r)
  else if ¬ payment_confirmed then (some "Payment must be confirmed", r)
  else (none, { r with status := .CONFIRMED, modified_at := now,
                       version := r.version + 1 })

/-- `Reservation.check_in` (the `room_number` argument is unused by the
body); `today` is `datetime.utcnow().date()`. -/
def Reservation.check_in (r : Reservation) (room_number : String)
    (today now : Int) : Option String × Reservation :=
  if r.status ≠ .CONFIRMED then
    (some "Can only check in CONFIRMED reservations", r)
  else if today < r.date_range.check_in then
    (some "Cannot check in before check-in date", r)
  else (none, { r with status := .CHECKED_IN, modified_at := now,
                       version := r.version + 1 })

/-- `Reservation.check_out` (its `Money` return value is
`total_amount` of the mutated state). -/
def Reservation.check_out (r : Reservation) (now : Int) :
    Option String × Reservation :=
  if r.status ≠ .CHECKED_IN then
    (some "Can only check out CHECKED_IN reservations", r)
  else (none, { r with status := .CHECKED_OUT, modified_at := now,
                       version := r.version + 1 })

/-- `Reservation.cancel` (the `reason` argument is unused by the body; its
`Money` return value is `calculate_refund today`, computed before the
mutation). -/
def Reservation.cancel (r : Reservation) (reason : String) (today now : Int) :
    Option String × Reservation :=
  if ¬ r.is_cancellable then
    (some "Reservation cannot be cancelled in current state", r)
  else (none, { r with status := .CANCELLED, modified_at := now,
                       version := r.version + 1 })

/-- `Reservation.mark_no_show`. -/
def Reservation.mark_no_show (r : Reservation) (now : Int) :
    Option String × Reservation :=
  if r.status ≠ .CONFIRMED ∧ r.status ≠ .PENDING then
    (some "Can only mark as no-show for PENDING or CONFIRMED reservations", r)
  else (none, { r with status := .NO_SHOW, modified_at := now,
                       version := r.version + 1 })

/-! ## Waitlist aggregate — src/domain/entities/waitlist.py -/

structure WaitlistEntry where
  waitlist_id : Int
  guest_id : Int
  room_type_id : String
  requested_dates : DateRange
  guest_count : GuestCount
  priority : Priority
  status : WaitlistStatus
  created_at : Int
  expires_at : Int
  notified_at : Option Int
  converted_reservation_id : Option Int
deriving Repr, DecidableEq

/-- pydantic construction of `WaitlistEntry`.  Field order is `waitlist_id`,
`guest_id`, `room_type_id`, `requested_dates`, `guest_count`, `priority`,
`status`, `created_at`, `expires_at`, `notified_at`,
`converted_reservation_id`.  `validate_guest_count` runs on `guest_count`
and `validate_expires_at` on `expires_at` (whose `values` does contain
`created_at`).  `validate_status_for_conversion` runs on `status`, but
`converted_reservation_id` is declared after `status` and is therefore never
in `values` at that point, so its conversion-consistency check is
unreachable: construction accepts any combination of `status` and
`converted_reservation_id`. -/
def mkWaitlistEntry (waitlist_id guest_id : Int) (room_type_id : String)
    (requested_dates : DateRange) (guest_count : GuestCount)
    (priority : Priority) (status : WaitlistStatus)
    (created_at expires_at : Int)
    (notified_at converted_reservation_id : Option Int) :
    Except String WaitlistEntry :=
  if guest_count.adults < 1 then .error "At least 1 adult required"
  else if expires_at ≤ created_at then
    .error "expires_at must be after created_at"
  else .ok ⟨waitlist_id, guest_id, room_type_id, requested_dates, guest_count,
    priority, status, created_at, expires_at, notified_at,
    converted_reservation_id⟩

/-- `WaitlistEntry.add_to_waitlist`: constructs an ACTIVE entry with
`created_at = now` and `expires_at = now + 14 days` (hours). -/
def add_to_waitlist (waitlist_id guest_id : Int) (room_type_id : String)
    (requested_dates : DateRange) (guest_count : GuestCount)
    (priority : Priority) (now : Int) : Except String WaitlistEntry :=
  mkWaitlistEntry waitlist_id guest_id room_type_id requested_dates
    guest_count priority .ACTIVE now (now + 14 * 24) none none

/-- `WaitlistEntry.convert_to_reservation`. -/
def WaitlistEntry.convert_to_reservation (e : WaitlistEntry)
    (reservation_id : Int) : Option String × WaitlistEntry :=
  if e.status ≠ .ACTIVE then (some "Can only convert ACTIVE entries", e)
  else (none, { e with status := .CONVERTED,
                       converted_reservation_id := some reservation_id })

/-- `WaitlistEntry.expire`: silent no-op unless ACTIVE. -/
def WaitlistEntry.expire (e : WaitlistEntry) : WaitlistEntry :=
  if e.status = .ACTIVE then { e with status := .EXPIRED } else e

/-- `WaitlistEntry.extend_expiry`: silent no-op unless ACTIVE. -/
def WaitlistEntry.extend_expiry (e : WaitlistEntry) (additional_days : Int) :
    WaitlistEntry :=
  if e.status = .ACTIVE then
    { e with expires_at := e.expires_at + additional_days * 24 }
  else e

/-- `WaitlistEntry.upgrade_priority`: silent no-op unless the new priority
ranks strictly higher. -/
def WaitlistEntry.upgrade_priority (e : WaitlistEntry)
    (new_priority : Priority) : WaitlistEntry :=
  if new_priority.value > e.priority.value then
    { e with priority := new_priority }
  else e

/-- `WaitlistEntry.mark_notified`. -/
def WaitlistEntry.mark_notified (e : WaitlistEntry) (now : Int) :
    WaitlistEntry :=
  { e with notified_at := some now }

/-- `WaitlistEntry.calculate_priority_score`.  Both day counts come from
`timedelta.days`, which is floor division of the elapsed time by one day. -/
def WaitlistEntry.calculate_priority_score (e : WaitlistEntry) (now : Int) :
    Int :=
  e.priority.value * 100 + Int.fdiv (now - e.created_at) 24 * 2 +
    (14 - Int.fdiv (e.expires_at - now) 24) * 5

/-- The capacity invariant of the spec:
`reserved_rooms + blocked_rooms ≤ total_rooms + overbooking_threshold`. -/
def capacityInv (a : Availability) : Prop :=
  a.reserved_rooms + a.blocked_rooms ≤ a.total_rooms + a.overbooking_threshold

instance (a : Availability) : Decidable (capacityInv a) := by
  unfold capacityInv; infer_instance

/-! ## Claim-support definitions -/

/-- An Availability mutator call (the arguments of one call). -/
inductive AvOp where
  | reserveOp (count : Int)
  | releaseOp (count : Int)
  | unblockOp (count : Int)
deriving Repr, DecidableEq

/-- The `count` argument of an Availability call. -/
def AvOp.count : AvOp → Int
  | .reserveOp c => c
  | .releaseOp c => c
  | .unblockOp c => c

/-- Execute one Availability call at clock value `now`. -/
def AvOp.apply : AvOp → Availability → Int → Option String × Availability
  | .reserveOp c, a, now => a.reserve_rooms c now
  | .releaseOp c, a, now => a.release_rooms c now
  | .unblockOp c, a, now => a.unblock_rooms c now

/-- Run a sequence of Availability calls, requiring every call to succeed
(`none` as soon as one raises). -/
def runAvOps : Availability → List (AvOp × Int) → Option Availability
  | a, [] => some a
  | a, (op, now) :: rest =>
    if (op.apply a now).1 = none then runAvOps (op.apply a now).2 rest
    else none

/-- A Reservation operation call (the arguments of one call). -/
inductive ResOp where
  | confirmOp (payment_confirmed : Bool)
  | checkInOp (room_number : String) (today : Int)
  | checkOutOp
  | cancelOp (reason : String) (today : Int)
  | noShowOp
  | modifyOp (new_date_range : Option DateRange)
      (new_guest_count : Option GuestCount)
      (new_room_type_id : Option String)
      (new_total_amount : Option Money) (today : Int)
  | addRequestOp (request_type : RequestType) (description : String)
      (request_id : Int)
deriving Repr, DecidableEq

/-- Execute one Reservation call at clock value `now`, keeping the state the
call leaves behind whether or not it raises. -/
def ResOp.apply : ResOp → Reservation → Int → Reservation
  | .confirmOp p, r, now => (r.confirm p now).2
  | .checkInOp rn t, r, now => (r.check_in rn t now).2
  | .checkOutOp, r, now => (r.check_out now).2
  | .cancelOp rs t, r, now => (r.cancel rs t now).2
  | .noShowOp, r, now => (r.mark_no_show now).2
  | .modifyOp d g rt m t, r, now => (r.modify d g rt m t now).2
  | .addRequestOp ty ds rid, r, now => r.add_special_request ty ds rid now

/-- Run a sequence of Reservation calls. -/
def runRes : Reservation → List (ResOp × Int) → Reservation
  | r, [] => r
  | r, (op, now) :: rest => runRes (op.apply r now) rest

/-- The statuses visited while running a sequence of Reservation calls,
starting state included. -/
def statusesAlong : Reservation → List (ResOp × Int) → List ReservationStatus
  | r, [] => [r.status]
  | r, (op, now) :: rest => r.status :: statusesAlong (op.apply r now) rest

/-- The WaitlistEntry invariant stated by the spec:
`converted_reservation_id` set ⇔ `status == CONVERTED`. -/
def conversionInv (e : WaitlistEntry) : Prop :=
  e.converted_reservation_id.isSome ↔ e.status = .CONVERTED

instance (e : WaitlistEntry) : Decidable (conversionInv e) := by
  unfold conversionInv; infer_instance

/-- The boundary-test policy of the spec: 80% refund, 24-hour deadline. -/
def c4pol : CancellationPolicy := ⟨"Policy", 80, 24⟩

/-- The priority score as the claim words it: the same composition but with
*truncated* whole-day counts (`Int.tdiv`, rounding toward zero) in place of
the floor division performed by Python `timedelta.days`. -/
def claimPriorityScore (e : WaitlistEntry) (now : Int) : Int :=
  e.priority.value * 100 + Int.tdiv (now - e.created_at) 24 * 2 +
    (14 - Int.tdiv (e.expires_at - now) 24) * 5

/-- A fresh PENDING reservation: 2 nights from day 101, 2 adults,
total 500 IDR, 80%/24h cancellation policy, created at hour 50 by "admin". -/
def sampleRes : Reservation :=
  ⟨7, "CONF123", 1, "DELUXE", ⟨101, 103⟩, ⟨2, 0⟩, ⟨500, "IDR"⟩,
    ⟨"STD", 80, 24⟩, .PENDING, .ONLINE, [], 50, 50, "admin", 1⟩

/-- `sampleRes` after `confirm` and `check_out` have been applied out of
order: a CHECKED_OUT copy used to exercise failing calls. -/
def sampleResDone : Reservation :=
  { sampleRes with status := .CHECKED_OUT }

/-- Availability of the worked spec example: 10 rooms, overbooking 2,
nothing reserved or blocked. -/
def exampleAvail : Availability := ⟨"DELUXE_001", 0, 10, 0, 0, 2, 0, 1⟩

/-- A constructible Availability state with a blocked room and no capacity:
`total_rooms = 0`, `blocked_rooms = 1`. -/
def blockedAvail : Availability := ⟨"RT", 0, 0, 0, 1, 0, 0, 1⟩

/-- A constructible Availability state with two reserved rooms. -/
def reservedAvail : Availability := ⟨"RT", 0, 10, 2, 0, 0, 0, 1⟩

/-- A 31-night date range starting the day after day 100. -/
def longRange : DateRange := ⟨101, 132⟩

/-- A WaitlistEntry whose `converted_reservation_id` is set while its status
is still ACTIVE. -/
def inconsistentEntry : WaitlistEntry :=
  ⟨1, 2, "RT", ⟨0, 2⟩, ⟨2, 0⟩, .LOW, .ACTIVE, 0, 336, none, some 42⟩

/-- A waitlist entry created at hour 0 that expires after one day. -/
def shortEntry : WaitlistEntry :=
  ⟨1, 2, "RT", ⟨0, 2⟩, ⟨2, 0⟩, .LOW, .ACTIVE, 0, 24, none, none⟩

/-! ## Theorems -/

/-- C1 fails as stated: from a state satisfying the capacity invariant
(10 rooms, overbooking 2, nothing reserved or blocked), the successful call
sequence `reserve_rooms 12; block_rooms 1` leaves
`reserved_rooms + blocked_rooms = 13 > 12 = total_rooms +
overbooking_threshold` — `block_rooms` only checks
`blocked_rooms + count ≤ total_rooms` and ignores rooms already reserved
into the overbooking allowance. -/
theorem C1_counterexample :
    capacityInv exampleAvail ∧
    (exampleAvail.reserve_rooms 12 1).1 = none ∧
    ((exampleAvail.reserve_rooms 12 1).2.block_rooms 1 "maintenance" 2).1 =
      none ∧
    ¬ capacityInv
      ((exampleAvail.reserve_rooms 12 1).2.block_rooms 1 "maintenance" 2).2 := by
  decide

/-- One successful Availability call among reserve/release/unblock with a
non-negative count preserves the capacity invariant and leaves
`overbooking_threshold` unchanged. -/
theorem avop_preserves_inv (op : AvOp) (a : Availability) (now : Int)
    (hinv : capacityInv a) (hob : 0 ≤ a.overbooking_threshold)
    (hc : 0 ≤ op.count) (hok : (op.apply a now).1 = none) :
    capacityInv (op.apply a now).2 ∧
      (op.apply a now).2.overbooking_threshold = a.overbooking_threshold := by
  unfold capacityInv at hinv ⊢
  cases op with
  | reserveOp c =>
    simp only [AvOp.apply, AvOp.count] at hok hc ⊢
    unfold Availability.reserve_rooms at hok ⊢
    by_cases h : a.check_availability c = true
    · have hor := h
      unfold Availability.check_availability Availability.available_rooms
        at hor
      simp only [Bool.or_eq_true, decide_eq_true_eq] at hor
      simp [h]
      rcases hor with hor | hor <;> omega
    · simp [h] at hok
  | releaseOp c =>
    simp only [AvOp.apply, AvOp.count] at hok hc ⊢
    unfold Availability.release_rooms at hok ⊢
    by_cases h : c > a.reserved_rooms
    · simp [h] at hok
    · simp [h]
      omega
  | unblockOp c =>
    simp only [AvOp.apply, AvOp.count] at hok hc ⊢
    unfold Availability.unblock_rooms at hok ⊢
    by_cases h : c > a.blocked_rooms
    · simp [h] at hok
    · simp [h]
      omega

/-- C1 amended: over every sequence of successful `reserve_rooms` /
`release_rooms` / `unblock_rooms` calls with non-negative counts, starting
from a state satisfying the capacity invariant (with the declared
`overbooking_threshold ≥ 0`), the invariant
`reserved_rooms + blocked_rooms ≤ total_rooms + overbooking_threshold`
holds after each call; `block_rooms` is excluded because a successful block
can violate the invariant (see the counterexample). -/
theorem C1_amended_invariant_preserved :
    ∀ (ops : List (AvOp × Int)) (a a' : Availability),
      capacityInv a → 0 ≤ a.overbooking_threshold →
      (∀ p ∈ ops, 0 ≤ p.1.count) →
      runAvOps a ops = some a' → capacityInv a' := by
  intro ops
  induction ops with
  | nil =>
    intro a a' hinv hob _ hrun
    unfold runAvOps at hrun
    cases hrun
    exact hinv
  | cons p rest ih =>
    intro a a' hinv hob hcounts hrun
    obtain ⟨op, now⟩ := p
    unfold runAvOps at hrun
    by_cases h : (op.apply a now).1 = none
    · rw [if_pos h] at hrun
      have hstep := avop_preserves_inv op a now hinv hob
        (hcounts (op, now) (List.mem_cons_self _ _)) h
      exact ih (op.apply a now).2 a' hstep.1 (hstep.2 ▸ hob)
        (fun q hq => hcounts q (List.mem_cons_of_mem _ hq)) hrun
    · rw [if_neg h] at hrun
      cases hrun

/-- Witness for C1 amended: running `reserve_rooms 5` then
`release_rooms 2` from the 10-room example state yields a state satisfying
the capacity invariant. -/
theorem C1_amended_witness :
    capacityInv (⟨"DELUXE_001", 0, 10, 3, 0, 2, 2, 3⟩ : Availability) :=
  C1_amended_invariant_preserved [(.reserveOp 5, 1), (.releaseOp 2, 2)]
    exampleAvail ⟨"DELUXE_001", 0, 10, 3, 0, 2, 2, 3⟩ (by decide) (by decide)
    (by decide) (by decide)

/-- C3: `check_availability count` is true iff `available_rooms ≥ count` or
`available_rooms + overbooking_threshold ≥ count`; `reserve_rooms count`
raises exactly when `check_availability count` is false and otherwise adds
`count` to `reserved_rooms`, bumps `version` and refreshes `last_updated`;
concretely, from `total_rooms = 10`, `overbooking_threshold = 2`,
`reserved_rooms = 0`, `reserve_rooms 11` succeeds leaving
`available_rooms = -1` and a following `reserve_rooms 2` raises. -/
theorem C3_check_availability_reserve :
    (∀ (a : Availability) (count : Int),
      a.check_availability count = true ↔
        (a.available_rooms ≥ count ∨
          a.available_rooms + a.overbooking_threshold ≥ count)) ∧
    (∀ (a : Availability) (count now : Int),
      ((a.reserve_rooms count now).1.isSome ↔
        a.check_availability count = false) ∧
      (a.check_availability count = true →
        (a.reserve_rooms count now).2 =
          { a with reserved_rooms := a.reserved_rooms + count,
                   last_updated := now, version := a.version + 1 })) ∧
    ((exampleAvail.reserve_rooms 11 1).1 = none ∧
      ((exampleAvail.reserve_rooms 11 1).2).available_rooms = -1 ∧
      (((exampleAvail.reserve_rooms 11 1).2).reserve_rooms 2 2).1.isSome) := by
  refine ⟨?_, ?_, ?_⟩
  · intro a count
    unfold Availability.check_availability
    simp [decide_eq_true_eq]
  · intro a count now
    constructor
    · unfold Availability.reserve_rooms
      by_cases h : a.check_availability count = true
      · simp [h]
      · simp only [Bool.not_eq_true] at h
        simp [h]
    · intro h
      unfold Availability.reserve_rooms
      simp [h]
  · decide

/-- Witness for C3: applying the success clause at the worked example. -/
theorem C3_witness :
    (exampleAvail.reserve_rooms 11 1).2 =
      { exampleAvail with
          reserved_rooms := exampleAvail.reserved_rooms + 11,
          last_updated := 1, version := exampleAvail.version + 1 } :=
  (C3_check_availability_reserve.2.1 exampleAvail 11 1).2 (by decide)

/-- C10 fails as stated: `blockedAvail` (`total_rooms = 0`,
`blocked_rooms = 1`, both accepted by construction, which never reads the
field being validated) has `available_rooms = -1`, so `check_availability 0`
is false and `reserve_rooms 0` raises even though `0 ≤ 0`. -/
theorem C10_counterexample :
    mkAvailability "RT" 0 0 0 1 0 0 1 = .ok blockedAvail ∧
    blockedAvail.check_availability 0 = false ∧
    (blockedAvail.reserve_rooms 0 5).1.isSome ∧
    (blockedAvail.reserve_rooms 0 5).2 = blockedAvail :=
  ⟨rfl, by decide, by decide, by decide⟩

/-- C10 amended: on every Availability state satisfying the capacity
invariant (with the declared `overbooking_threshold ≥ 0`),
`check_availability count` is true for every `count ≤ 0` and
`reserve_rooms count` succeeds, adding `count` to `reserved_rooms` and
bumping `version`; no mutator validates that `count` is positive, and a
negative count decreases `reserved_rooms`, possibly below zero — concretely
`reserve_rooms (-3)` on a state with 2 reserved rooms leaves
`reserved_rooms = -1`. -/
theorem C10_amended_nonpositive_counts :
    (∀ (a : Availability) (count now : Int), capacityInv a →
      0 ≤ a.overbooking_threshold → count ≤ 0 →
      a.check_availability count = true ∧
      (a.reserve_rooms count now).1 = none ∧
      (a.reserve_rooms count now).2.reserved_rooms =
        a.reserved_rooms + count ∧
      (a.reserve_rooms count now).2.version = a.version + 1) ∧
    ((reservedAvail.reserve_rooms (-3) 1).1 = none ∧
      (reservedAvail.reserve_rooms (-3) 1).2.reserved_rooms = -1) := by
  constructor
  · intro a count now hinv hob hc
    unfold capacityInv at hinv
    have hcheck : a.check_availability count = true := by
      unfold Availability.check_availability Availability.available_rooms
      simp only [Bool.or_eq_true, decide_eq_true_eq]
      omega
    refine ⟨hcheck, ?_, ?_, ?_⟩ <;>
      · unfold Availability.reserve_rooms
        simp [hcheck]
  · decide

/-- Witness for C10 amended: a zero count is admitted on the worked example
state. -/
theorem C10_amended_witness :
    exampleAvail.check_availability 0 = true :=
  (C10_amended_nonpositive_counts.1 exampleAvail 0 1 (by decide) (by decide)
    (by decide)).1

/-- C2 fails as stated: `sampleRes` is a valid PENDING reservation
(accepted by construction) that is modifiable on day 100, and `modify` with
a 31-night replacement date range (itself a valid `DateRange`) succeeds and
stores it instead of rejecting it — the assignments in `modify` never
re-run the `Reservation` validators because no model enables
`validate_assignment` — so after the call `nights = 31 > 30`. -/
theorem C2_modify_skips_revalidation :
    mkReservation 7 "CONF123" 1 "DELUXE" ⟨101, 103⟩ ⟨2, 0⟩ ⟨500, "IDR"⟩
      ⟨"STD", 80, 24⟩ .ONLINE "admin" 50 = .ok sampleRes ∧
    mkDateRange 100 101 132 = .ok longRange ∧
    longRange.nights = 31 ∧
    sampleRes.is_modifiable 100 = true ∧
    (sampleRes.modify (some longRange) none none none 100 60).1 = none ∧
    (sampleRes.modify (some longRange) none none none 100 60).2.date_range =
      longRange ∧
    (sampleRes.modify
      (some longRange) none none none 100 60).2.date_range.nights = 31 :=
  ⟨rfl, rfl, by decide, by decide, by decide, by decide, by decide⟩

/-- C2 amended: on a modifiable Reservation (status PENDING or CONFIRMED
and check-in at least tomorrow), `modify` succeeds — it raises exactly when
`is_modifiable` is false — and stores every supplied replacement field
unconditionally, without re-validating the Reservation invariants; in
particular a new date range of more than 30 nights is accepted and stored
(31 nights after the concrete call). -/
theorem C2_amended_modify_unvalidated :
    (∀ (r : Reservation) (d : Option DateRange) (g : Option GuestCount)
        (rt : Option String) (m : Option Money) (today now : Int),
      ((r.modify d g rt m today now).1 = none ↔
        r.is_modifiable today = true) ∧
      (r.is_modifiable today = true →
        (r.modify d g rt m today now).2.date_range =
          d.getD r.date_range ∧
        (r.modify d g rt m today now).2.guest_count =
          g.getD r.guest_count ∧
        (r.modify d g rt m today now).2.total_amount =
          m.getD r.total_amount)) ∧
    (sampleRes.modify
      (some longRange) none none none 100 60).2.date_range.nights = 31 := by
  constructor
  · intro r d g rt m today now
    constructor
    · unfold Reservation.modify
      by_cases h : r.is_modifiable today = true
      · simp [h]
      · simp only [Bool.not_eq_true] at h
        simp [h]
    · intro h
      unfold Reservation.modify
      rw [if_neg (by simp [h])]
      rcases d with _ | d <;> rcases g with _ | g <;>
        rcases rt with _ | rt <;> rcases m with _ | m <;>
        dsimp only <;>
        first
          | exact ⟨rfl, rfl, rfl⟩
          | (split <;> exact ⟨rfl, rfl, rfl⟩)
  · decide

/-- Witness for C2 amended: the modifiable sample reservation accepts and
stores the 31-night range. -/
theorem C2_amended_witness :
    sampleRes.is_modifiable 100 = true ∧
    (sampleRes.modify (some longRange) none none none 100 60).2.date_range =
      (some longRange).getD sampleRes.date_range :=
  ⟨by decide,
    ((C2_amended_modify_unvalidated.1 sampleRes (some longRange) none none
      none 100 60).2 (by decide)).1⟩

/-- C4 fails as stated: with the 80%/24h policy, a cancellation one hour
after the instant exactly 24 hours before check-in (check-in day 10, hour
instant `24·10 − 23`) falls on the same calendar date (day 9), and the code,
which counts hours as `(check_in − cancel_date).days · 24`, still returns
the full 80% refund (80 of 100 IDR) where the claim demands zero. -/
theorem C4_counterexample :
    hourDate (24 * 10 - 24) = 9 ∧
    (c4pol.calculate_refund ⟨100, "IDR"⟩ 9 10).amount = 80 ∧
    hourDate (24 * 10 - 23) = 9 ∧
    (c4pol.calculate_refund ⟨100, "IDR"⟩ (hourDate (24 * 10 - 23))
      10).amount = 80 ∧
    (c4pol.calculate_refund ⟨100, "IDR"⟩ (hourDate (24 * 10 - 23))
      10).amount ≠ 0 := by
  have h9 : hourDate (24 * 10 - 23) = 9 := by decide
  have hr : (c4pol.calculate_refund ⟨100, "IDR"⟩ 9 10).amount = 80 := by
    unfold CancellationPolicy.calculate_refund c4pol
    norm_num
  refine ⟨by decide, hr, h9, ?_, ?_⟩
  · rw [h9]
    exact hr
  · rw [h9, hr]
    norm_num

/-- C4 amended: `calculate_refund` pays `total × refund_percentage/100` when
`(check_in_date − cancellation_date) · 24 ≥ deadline_hours` and zero
otherwise; with the 80%/24h policy, cancelling exactly 24 hours before
check-in yields the full refund, cancelling one hour later *also* yields the
full refund (the code truncates the cancellation instant to its calendar
date, which is unchanged), and the refund drops to zero exactly when the
cancellation date reaches the check-in date. -/
theorem C4_amended_refund_boundary :
    ∀ (p : CancellationPolicy) (m : Money)
      (cancellation_date check_in_date : Int),
      ((check_in_date - cancellation_date) * 24 ≥ p.deadline_hours →
        p.calculate_refund m cancellation_date check_in_date =
          ⟨m.amount * (p.refund_percentage / 100), m.currency⟩) ∧
      ((check_in_date - cancellation_date) * 24 < p.deadline_hours →
        p.calculate_refund m cancellation_date check_in_date =
          ⟨0, m.currency⟩) ∧
      (c4pol.calculate_refund m (check_in_date - 1) check_in_date =
        ⟨m.amount * (80 / 100), m.currency⟩) ∧
      (c4pol.calculate_refund m (hourDate (check_in_date * 24 - 24))
        check_in_date = ⟨m.amount * (80 / 100), m.currency⟩) ∧
      (c4pol.calculate_refund m (hourDate (check_in_date * 24 - 23))
        check_in_date = ⟨m.amount * (80 / 100), m.currency⟩) ∧
      (c4pol.calculate_refund m check_in_date check_in_date =
        ⟨0, m.currency⟩) := by
  intro p m cancellation_date check_in_date
  have hd24 : hourDate (check_in_date * 24 - 24) = check_in_date - 1 := by
    unfold hourDate
    rw [Int.fdiv_eq_ediv _ (by norm_num)]
    omega
  have hd23 : hourDate (check_in_date * 24 - 23) = check_in_date - 1 := by
    unfold hourDate
    rw [Int.fdiv_eq_ediv _ (by norm_num)]
    omega
  refine ⟨?_, ?_, ?_, ?_, ?_, ?_⟩
  · intro h
    unfold CancellationPolicy.calculate_refund
    rw [if_pos h]
  · intro h
    unfold CancellationPolicy.calculate_refund
    rw [if_neg (by omega)]
  · unfold CancellationPolicy.calculate_refund
    rw [show c4pol.deadline_hours = 24 from rfl,
        show c4pol.refund_percentage = 80 from rfl, if_pos (by omega)]
  · rw [hd24]
    unfold CancellationPolicy.calculate_refund
    rw [show c4pol.deadline_hours = 24 from rfl,
        show c4pol.refund_percentage = 80 from rfl, if_pos (by omega)]
  · rw [hd23]
    unfold CancellationPolicy.calculate_refund
    rw [show c4pol.deadline_hours = 24 from rfl,
        show c4pol.refund_percentage = 80 from rfl, if_pos (by omega)]
  · unfold CancellationPolicy.calculate_refund
    rw [show c4pol.deadline_hours = 24 from rfl, if_neg (by omega)]

/-- Witness for C4 amended: cancelling on day 9 against check-in day 10
under the 80%/24h policy refunds 80% of 100 IDR. -/
theorem C4_amended_witness :
    c4pol.calculate_refund ⟨100, "IDR"⟩ 9 10 =
      ⟨(100 : Rat) * (c4pol.refund_percentage / 100), "IDR"⟩ :=
  (C4_amended_refund_boundary c4pol ⟨100, "IDR"⟩ 9 10).1 (by decide)

/-- C7 fails as stated: construction does not reject combinations that
violate the equivalence.  It accepts an entry with
`converted_reservation_id = 42` and status ACTIVE, because
`validate_status_for_conversion` runs while validating `status`, before
`converted_reservation_id` is in `values`, and therefore never fires. -/
theorem C7_construction_accepts_violation :
    mkWaitlistEntry 1 2 "RT" ⟨0, 2⟩ ⟨2, 0⟩ .LOW .ACTIVE 0 336 none
      (some 42) = .ok inconsistentEntry ∧
    inconsistentEntry.converted_reservation_id.isSome ∧
    inconsistentEntry.status ≠ .CONVERTED ∧
    ¬ conversionInv inconsistentEntry :=
  ⟨rfl, by decide, by decide, by decide⟩

/-- C7 amended: construction does not enforce the equivalence
`converted_reservation_id` set ⇔ `status == CONVERTED` (its conversion
validator is unreachable), but every entry `add_to_waitlist` creates
satisfies it, and each operation — `convert_to_reservation`, `expire`,
`extend_expiry`, `upgrade_priority`, `mark_notified` — preserves it, so the
equivalence does hold on every entry reachable from `add_to_waitlist`. -/
theorem C7_amended_reachable_invariant :
    (∀ (wid gid : Int) (rt : String) (dr : DateRange) (gc : GuestCount)
        (prio : Priority) (now : Int) (e : WaitlistEntry),
      add_to_waitlist wid gid rt dr gc prio now = .ok e →
        conversionInv e) ∧
    (∀ (e : WaitlistEntry) (rid : Int),
      conversionInv e → conversionInv (e.convert_to_reservation rid).2) ∧
    (∀ (e : WaitlistEntry), conversionInv e → conversionInv e.expire) ∧
    (∀ (e : WaitlistEntry) (days : Int),
      conversionInv e → conversionInv (e.extend_expiry days)) ∧
    (∀ (e : WaitlistEntry) (p : Priority),
      conversionInv e → conversionInv (e.upgrade_priority p)) ∧
    (∀ (e : WaitlistEntry) (now : Int),
      conversionInv e → conversionInv (e.mark_notified now)) := by
  refine ⟨?_, ?_, ?_, ?_, ?_, ?_⟩
  · intro wid gid rt dr gc prio now e h
    unfold add_to_waitlist mkWaitlistEntry at h
    split_ifs at h
    injection h with h
    subst h
    unfold conversionInv
    simp
  · intro e rid hinv
    unfold WaitlistEntry.convert_to_reservation
    split_ifs with h
    · exact hinv
    · unfold conversionInv
      simp
  · intro e hinv
    unfold WaitlistEntry.expire
    split_ifs with h
    · unfold conversionInv at hinv ⊢
      rw [h] at hinv
      simp_all
    · exact hinv
  · intro e days hinv
    unfold WaitlistEntry.extend_expiry
    split_ifs <;> exact hinv
  · intro e p hinv
    unfold WaitlistEntry.upgrade_priority
    split_ifs <;> exact hinv
  · intro e now hinv
    exact hinv

/-- Witness for C7 amended: `expire` on the ACTIVE sample entry (whose
conversion id is unset) keeps the equivalence. -/
theorem C7_amended_witness :
    conversionInv shortEntry.expire :=
  C7_amended_reachable_invariant.2.2.1 shortEntry (by decide)

/-- C9 fails as stated: the day counts come from `timedelta.days`, which is
floor division, not truncation.  On an entry created at hour 0 expiring at
hour 24, evaluated at hour 25 (one hour past expiry), `expires_at − now` is
−1 hour: floor gives −1 day and the code scores
`100 + 1·2 + (14−(−1))·5 = 177`, while the claim's truncated day count gives
0 days and `100 + 1·2 + (14−0)·5 = 172`. -/
theorem C9_counterexample :
    mkWaitlistEntry 1 2 "RT" ⟨0, 2⟩ ⟨2, 0⟩ .LOW .ACTIVE 0 24 none none =
      .ok shortEntry ∧
    shortEntry.calculate_priority_score 25 = 177 ∧
    claimPriorityScore shortEntry 25 = 172 ∧
    shortEntry.calculate_priority_score 25 ≠
      claimPriorityScore shortEntry 25 :=
  ⟨rfl, by decide, by decide, by decide⟩

/-- C9 amended: the score is
`priority.value·100 + days_waiting·2 + (14 − days_to_expiry)·5` with
floor-division day counts, which agree with the claim's truncated day
counts whenever `created_at ≤ now ≤ expires_at`. -/
theorem C9_amended_floor_days :
    ∀ (e : WaitlistEntry) (now : Int),
      e.created_at ≤ now → now ≤ e.expires_at →
      e.calculate_priority_score now = claimPriorityScore e now := by
  intro e now h1 h2
  unfold WaitlistEntry.calculate_priority_score claimPriorityScore
  rw [Int.fdiv_eq_tdiv (by omega) (by norm_num),
      Int.fdiv_eq_tdiv (by omega) (by norm_num)]

/-- Witness for C9 amended: the two scores agree at hour 10, inside the
entry's lifetime. -/
theorem C9_amended_witness :
    shortEntry.calculate_priority_score 10 = claimPriorityScore shortEntry 10 :=
  C9_amended_floor_days shortEntry 10 (by decide) (by decide)

/-- C5: every fallible aggregate operation that raises leaves the aggregate
exactly as it was — each method checks all its preconditions before its
first field assignment. -/
theorem C5_atomic_on_failure :
    (∀ (r : Reservation) (p : Bool) (now : Int),
      (r.confirm p now).1.isSome → (r.confirm p now).2 = r) ∧
    (∀ (r : Reservation) (rn : String) (today now : Int),
      (r.check_in rn today now).1.isSome → (r.check_in rn today now).2 = r) ∧
    (∀ (r : Reservation) (now : Int),
      (r.check_out now).1.isSome → (r.check_out now).2 = r) ∧
    (∀ (r : Reservation) (rs : String) (today now : Int),
      (r.cancel rs today now).1.isSome → (r.cancel rs today now).2 = r) ∧
    (∀ (r : Reservation) (now : Int),
      (r.mark_no_show now).1.isSome → (r.mark_no_show now).2 = r) ∧
    (∀ (r : Reservation) (d : Option DateRange) (g : Option GuestCount)
        (rt : Option String) (m : Option Money) (today now : Int),
      (r.modify d g rt m today now).1.isSome →
        (r.modify d g rt m today now).2 = r) ∧
    (∀ (a : Availability) (count now : Int),
      (a.reserve_rooms count now).1.isSome →
        (a.reserve_rooms count now).2 = a) ∧
    (∀ (a : Availability) (count now : Int),
      (a.release_rooms count now).1.isSome →
        (a.release_rooms count now).2 = a) ∧
    (∀ (a : Availability) (count : Int) (rs : String) (now : Int),
      (a.block_rooms count rs now).1.isSome →
        (a.block_rooms count rs now).2 = a) ∧
    (∀ (a : Availability) (count now : Int),
      (a.unblock_rooms count now).1.isSome →
        (a.unblock_rooms count now).2 = a) ∧
    (∀ (e : WaitlistEntry) (reservation_id : Int),
      (e.convert_to_reservation reservation_id).1.isSome →
        (e.convert_to_reservation reservation_id).2 = e) := by
  refine ⟨?_, ?_, ?_, ?_, ?_, ?_, ?_, ?_, ?_, ?_, ?_⟩
  · intro r p now h
    unfold Reservation.confirm at *
    split_ifs at * <;> simp_all
  · intro r rn today now h
    unfold Reservation.check_in at *
    split_ifs at * <;> simp_all
  · intro r now h
    unfold Reservation.check_out at *
    split_ifs at * <;> simp_all
  · intro r rs today now h
    unfold Reservation.cancel at *
    split_ifs at * <;> simp_all
  · intro r now h
    unfold Reservation.mark_no_show at *
    split_ifs at * <;> simp_all
  · intro r d g rt m today now h
    unfold Reservation.modify at *
    split_ifs at * <;> simp_all
  · intro a count now h
    unfold Availability.reserve_rooms at *
    split_ifs at * <;> simp_all
  · intro a count now h
    unfold Availability.release_rooms at *
    split_ifs at * <;> simp_all
  · intro a count rs now h
    unfold Availability.block_rooms at *
    split_ifs at * <;> simp_all
  · intro a count now h
    unfold Availability.unblock_rooms at *
    split_ifs at * <;> simp_all
  · intro e reservation_id h
    unfold WaitlistEntry.convert_to_reservation at *
    split_ifs at * <;> simp_all

/-- Witness for C5: `confirm` on a CHECKED_OUT reservation raises and leaves
the aggregate unchanged. -/
theorem C5_witness :
    (sampleResDone.confirm true 99).2 = sampleResDone :=
  C5_atomic_on_failure.1 sampleResDone true 99 (by decide)

/-- The state a `modify` call leaves behind has the status the reservation
started with, whether or not the call raises. -/
theorem modify_status_eq (r : Reservation) (d : Option DateRange)
    (g : Option GuestCount) (rt : Option String) (m : Option Money)
    (today now : Int) :
    (r.modify d g rt m today now).2.status = r.status := by
  unfold Reservation.modify
  split_ifs <;>
    first
      | rfl
      | (rcases d with _ | d <;> rcases g with _ | g <;>
          rcases rt with _ | rt <;> rcases m with _ | m <;>
          dsimp only <;>
          first
            | rfl
            | (split <;> rfl))

/-- If the state after one Reservation call has status CHECKED_IN, then
either the status already was CHECKED_IN, or the call was `check_in`
performed while the status was CONFIRMED. -/
theorem resop_status_to_checked_in (op : ResOp) (r : Reservation) (now : Int)
    (h : (op.apply r now).status = .CHECKED_IN) :
    r.status = .CHECKED_IN ∨
      (r.status = .CONFIRMED ∧ ∃ rn t, op = .checkInOp rn t) := by
  cases op with
  | confirmOp p =>
    dsimp only [ResOp.apply] at h
    unfold Reservation.confirm at h
    split_ifs at h
    · exact Or.inl h
    · exact Or.inl h
  | checkInOp rn t =>
    dsimp only [ResOp.apply] at h
    unfold Reservation.check_in at h
    split_ifs at h with h1 h2
    · exact Or.inl h
    · exact Or.inl h
    · exact Or.inr ⟨not_ne_iff.mp h1, rn, t, rfl⟩
  | checkOutOp =>
    dsimp only [ResOp.apply] at h
    unfold Reservation.check_out at h
    split_ifs at h
    exact Or.inl h
  | cancelOp rs t =>
    dsimp only [ResOp.apply] at h
    unfold Reservation.cancel at h
    split_ifs at h
    exact Or.inl h
  | noShowOp =>
    dsimp only [ResOp.apply] at h
    unfold Reservation.mark_no_show at h
    split_ifs at h
    exact Or.inl h
  | modifyOp d g rt m t =>
    rw [show (ResOp.apply (.modifyOp d g rt m t) r now) =
      (r.modify d g rt m t now).2 from rfl, modify_status_eq] at h
    exact Or.inl h
  | addRequestOp ty ds rid =>
    exact Or.inl h

/-- Over a whole call sequence: if the final status is CHECKED_IN, the run
either started CHECKED_IN or visited CONFIRMED along the way. -/
theorem runRes_checked_in_via_confirmed :
    ∀ (ops : List (ResOp × Int)) (r : Reservation),
      (runRes r ops).status = .CHECKED_IN →
      r.status = .CHECKED_IN ∨ .CONFIRMED ∈ statusesAlong r ops := by
  intro ops
  induction ops with
  | nil =>
    intro r h
    exact Or.inl h
  | cons p rest ih =>
    intro r h
    obtain ⟨op, now⟩ := p
    unfold runRes at h
    rcases ih (op.apply r now) h with h1 | h1
    · rcases resop_status_to_checked_in op r now h1 with h2 | h2
      · exact Or.inl h2
      · right
        unfold statusesAlong
        rw [h2.1]
        exact List.mem_cons_self _ _
    · right
      unfold statusesAlong
      exact List.mem_cons_of_mem _ h1

/-- C6: a state with status CHECKED_IN only ever arises from a `check_in`
call performed while the status is CONFIRMED; no single call takes PENDING
to CHECKED_IN, and every call sequence from a PENDING start that ends
CHECKED_IN visits CONFIRMED. -/
theorem C6_checked_in_only_from_confirmed :
    (∀ (op : ResOp) (r : Reservation) (now : Int),
      (op.apply r now).status = .CHECKED_IN →
      r.status = .CHECKED_IN ∨
        (r.status = .CONFIRMED ∧ ∃ rn t, op = .checkInOp rn t)) ∧
    (∀ (op : ResOp) (r : Reservation) (now : Int),
      r.status = .PENDING → (op.apply r now).status ≠ .CHECKED_IN) ∧
    (∀ (r : Reservation) (ops : List (ResOp × Int)),
      r.status = .PENDING → (runRes r ops).status = .CHECKED_IN →
      .CONFIRMED ∈ statusesAlong r ops) := by
  refine ⟨resop_status_to_checked_in, ?_, ?_⟩
  · intro op r now hp h
    rcases resop_status_to_checked_in op r now h with h1 | h1
    · rw [hp] at h1
      exact absurd h1 (by simp)
    · rw [hp] at h1
      exact absurd h1.1 (by simp)
  · intro r ops hp h
    rcases runRes_checked_in_via_confirmed ops r h with h1 | h1
    · rw [hp] at h1
      exact absurd h1 (by simp)
    · exact h1

/-- Witness for C6: the run `confirm; check_in` from the PENDING sample
reservation ends CHECKED_IN and indeed visits CONFIRMED. -/
theorem C6_witness :
    ReservationStatus.CONFIRMED ∈
      statusesAlong sampleRes
        [(.confirmOp true, 1), (.checkInOp "101" 103, 2)] :=
  C6_checked_in_only_from_confirmed.2.2 sampleRes
    [(.confirmOp true, 1), (.checkInOp "101" 103, 2)] (by decide) (by decide)

/-- C8: each successful state-changing operation yields exactly the record
with its named effect applied, `version` incremented by 1 and `modified_at`
set to the clock value — every other field unchanged — while
`add_special_request` appends the new request and refreshes `modified_at`
without touching `version`. -/
theorem C8_version_bump_and_frame :
    (∀ (r : Reservation) (p : Bool) (now : Int),
      (r.confirm p now).1 = none →
      (r.confirm p now).2 =
        { r with status := .CONFIRMED, modified_at := now,
                 version := r.version + 1 }) ∧
    (∀ (r : Reservation) (rn : String) (today now : Int),
      (r.check_in rn today now).1 = none →
      (r.check_in rn today now).2 =
        { r with status := .CHECKED_IN, modified_at := now,
                 version := r.version + 1 }) ∧
    (∀ (r : Reservation) (now : Int),
      (r.check_out now).1 = none →
      (r.check_out now).2 =
        { r with status := .CHECKED_OUT, modified_at := now,
                 version := r.version + 1 }) ∧
    (∀ (r : Reservation) (rs : String) (today now : Int),
      (r.cancel rs today now).1 = none →
      (r.cancel rs today now).2 =
        { r with status := .CANCELLED, modified_at := now,
                 version := r.version + 1 }) ∧
    (∀ (r : Reservation) (now : Int),
      (r.mark_no_show now).1 = none →
      (r.mark_no_show now).2 =
        { r with status := .NO_SHOW, modified_at := now,
                 version := r.version + 1 }) ∧
    (∀ (r : Reservation) (d : Option DateRange) (g : Option GuestCount)
        (rt : Option String) (m : Option Money) (today now : Int),
      (r.modify d g rt m today now).1 = none →
      ((r.modify d g rt m today now).2.version = r.version + 1 ∧
        (r.modify d g rt m today now).2.modified_at = now ∧
        (r.modify d g rt m today now).2.status = r.status ∧
        (r.modify d g rt m today now).2.special_requests =
          r.special_requests ∧
        (r.modify d g rt m today now).2.created_at = r.created_at ∧
        (r.modify d g rt m today now).2.created_by = r.created_by ∧
        (r.modify d g rt m today now).2.reservation_id = r.reservation_id ∧
        (r.modify d g rt m today now).2.confirmation_code =
          r.confirmation_code ∧
        (r.modify d g rt m today now).2.guest_id = r.guest_id ∧
        (r.modify d g rt m today now).2.cancellation_policy =
          r.cancellation_policy ∧
        (r.modify d g rt m today now).2.booking_source =
          r.booking_source)) ∧
    (∀ (r : Reservation) (ty : RequestType) (ds : String) (rid now : Int),
      r.add_special_request ty ds rid now =
        { r with
            special_requests := r.special_requests ++
              [⟨rid, ty, ds, false, none, now⟩],
            modified_at := now }) := by
  refine ⟨?_, ?_, ?_, ?_, ?_, ?_, ?_⟩
  · intro r p now h
    unfold Reservation.confirm at *
    split_ifs at * <;> simp_all
  · intro r rn today now h
    unfold Reservation.check_in at *
    split_ifs at * <;> simp_all
  · intro r now h
    unfold Reservation.check_out at *
    split_ifs at * <;> simp_all
  · intro r rs today now h
    unfold Reservation.cancel at *
    split_ifs at * <;> simp_all
  · intro r now h
    unfold Reservation.mark_no_show at *
    split_ifs at * <;> simp_all
  · intro r d g rt m today now h
    unfold Reservation.modify at *
    split_ifs at *
    rcases d with _ | d <;> rcases g with _ | g <;>
      rcases rt with _ | rt <;> rcases m with _ | m <;>
      dsimp only <;>
      first
        | exact ⟨rfl, rfl, rfl, rfl, rfl, rfl, rfl, rfl, rfl, rfl, rfl⟩
        | (split <;>
            exact ⟨rfl, rfl, rfl, rfl, rfl, rfl, rfl, rfl, rfl, rfl, rfl⟩)
  · intro r ty ds rid now
    rfl

/-- Witness for C8: `confirm` on the PENDING sample reservation bumps the
version to 2 and sets `modified_at` to the clock value, changing nothing
else. -/
theorem C8_witness :
    (sampleRes.confirm true 60).2 =
      { sampleRes with status := .CONFIRMED, modified_at := 60,
                       version := sampleRes.version + 1 } :=
  C8_version_bump_and_frame.1 sampleRes true 60 (by decide)

end ResAPI
